import Mathlib

/-!
Shallow embedding of the ARES agent-coordination engine
(`src/ares/coordination/{agent_registry,task_coordinator,routing_manager,workflow_engine}.py`).

Modelling conventions:
* Python `float` scores are modelled as `Rat` (all constants in the source are
  exactly representable).
* `uuid.UUID` identifiers are modelled as `Nat`.
* `datetime` timestamps are modelled as `Nat` "minutes"; every state-changing
  operation takes the current time `now` explicitly.
* Python `dict`s (insertion-ordered, unique keys) are modelled as association
  lists; updates rewrite the matching entry in place, lookups take the first
  match, insertion of a fresh key appends.
* Database logging helpers (`_log_*`) swallow all errors in the source and do
  not affect coordination state, so they are omitted.
* An uncaught Python exception is modelled by returning `none` from an
  `Option`-valued operation.
-/

/-- Capability of an agent (`AgentCapability` in `agent_registry.py`). -/
structure AgentCapability where
  name : String
  proficiency_level : Nat
  category : String := ""
deriving DecidableEq, Repr

/-- Performance metrics of an agent (`AgentMetrics`). -/
structure AgentMetrics where
  reliability_score : Rat := 0
  success_rate : Rat := 0
  average_completion_time : Option Rat := none
  total_tasks_completed : Nat := 0
  last_activity : Option Nat := none
deriving DecidableEq, Repr

/-- Live status of an agent (`AgentStatus`). -/
structure AgentStatus where
  status : String := "available"
  current_task : Option String := none
  workload_percentage : Nat := 0
deriving DecidableEq, Repr

/-- Full agent profile (`AgentProfile`). -/
structure AgentProfile where
  name : String
  category : String := ""
  capabilities : List AgentCapability := []
  metrics : AgentMetrics := {}
  status : AgentStatus := {}
  max_concurrent_tasks : Nat := 3
  priority_level : String := "medium"
deriving DecidableEq, Repr

/-- Task priority (`TaskPriority` str-enum in `task_coordinator.py`). -/
inductive TaskPriority where
  | critical | high | medium | low
deriving DecidableEq, Repr

/-- The `.value` string of a `TaskPriority`. -/
def TaskPriority.value : TaskPriority → String
  | .critical => "critical"
  | .high => "high"
  | .medium => "medium"
  | .low => "low"

/-- Task lifecycle status (`TaskStatus` str-enum). -/
inductive TaskStatus where
  | pending | assigned | in_progress | completed | failed | cancelled
deriving DecidableEq, Repr

/-- Task dependency record (`TaskDependency`). -/
structure TaskDependency where
  task_id : Nat
  dependency_type : String := "prerequisite"
  status : String := "pending"
deriving DecidableEq, Repr

/-- Task capability requirement (`TaskRequirement`). -/
structure TaskRequirement where
  capability : String
  minimum_proficiency : Nat := 1
  required : Bool := true
  weight : Rat := 1
deriving DecidableEq, Repr

/-- Task definition (`TaskDefinition`); only the fields the coordination code
reads or writes are kept. `result_data` is modelled as an opaque key/value
list. -/
structure TaskDefinition where
  task_id : Nat
  title : String := ""
  description : String := ""
  priority : TaskPriority := .medium
  requirements : List TaskRequirement := []
  preferred_agents : List String := []
  excluded_agents : List String := []
  dependencies : List TaskDependency := []
  status : TaskStatus := .pending
  assigned_agents : List String := []
  assigned_at : Option Nat := none
  started_at : Option Nat := none
  completed_at : Option Nat := none
  result_data : Option (List (String × String)) := none
  feedback_score : Option Rat := none
  error_message : Option String := none
deriving DecidableEq, Repr

/-- Candidate-agent assignment record (`AgentAssignment`). -/
structure AgentAssignment where
  agent_name : String
  task_id : Nat
  assignment_score : Rat
deriving DecidableEq, Repr

/-- Agent registry state (`AgentRegistry`): the `agents` dict keyed by agent
name. -/
structure AgentRegistry where
  agents : List (String × AgentProfile) := []
deriving DecidableEq, Repr

/-- `AgentRegistry.get_agent`: dict lookup by name. -/
def AgentRegistry.get_agent (r : AgentRegistry) (n : String) : Option AgentProfile :=
  (r.agents.find? (fun p => p.1 == n)).map Prod.snd

/-- `AgentRegistry.get_available_agents`: agents whose status is `"available"`,
in registration order. -/
def AgentRegistry.get_available_agents (r : AgentRegistry) : List AgentProfile :=
  (r.agents.map Prod.snd).filter (fun a => a.status.status == "available")

/-- `AgentRegistry.get_agents_by_capability`. The source reads the
`capabilities_index` multimap (a `set` of names, iterated in unspecified
order); we refine that to registration order. -/
def AgentRegistry.get_agents_by_capability (r : AgentRegistry) (cap : String) :
    List AgentProfile :=
  (r.agents.map Prod.snd).filter (fun a => a.capabilities.any (fun c => c.name == cap))

/-- Effect of `AgentRegistry.update_agent_status` on one profile: the status
string and `current_task` are written first; `"busy"` then adds 25 workload
capped at 100, `"available"` resets workload to 0 and clears `current_task`,
any other status leaves the workload untouched. -/
def updateStatusProfile (a : AgentProfile) (status_v : String)
    (current_task : Option String) : AgentProfile :=
  let st0 := { a.status with status := status_v, current_task := current_task }
  let st :=
    if status_v == "busy" then
      { st0 with workload_percentage := min 100 (st0.workload_percentage + 25) }
    else if status_v == "available" then
      { st0 with workload_percentage := 0, current_task := none }
    else st0
  { a with status := st }

/-- `AgentRegistry.update_agent_status`: unknown agent names are a no-op. -/
def AgentRegistry.update_agent_status (r : AgentRegistry) (n status_v : String)
    (current_task : Option String := none) : AgentRegistry :=
  let f := fun (p : String × AgentProfile) =>
    if p.1 == n then (p.1, updateStatusProfile p.2 status_v current_task) else p
  { r with agents := r.agents.map f }

/-- `AgentRegistry.update_agent_metrics`, specialised to the keyword arguments
used at the `complete_task` call site (`total_tasks_completed`,
`average_completion_time`, `last_activity`). -/
def AgentRegistry.update_agent_metrics (r : AgentRegistry) (n : String)
    (total : Nat) (avg : Option Rat) (last : Option Nat) : AgentRegistry :=
  let f := fun (p : String × AgentProfile) =>
    if p.1 == n then
      (p.1, { p.2 with metrics := { p.2.metrics with
          total_tasks_completed := total,
          average_completion_time := avg,
          last_activity := last } })
    else p
  { r with agents := r.agents.map f }

/-- Coordinator state (`TaskCoordinator`): the registry it owns a reference to,
plus `active_tasks`, `task_queue`, `agent_assignments` and `task_history`. -/
structure TaskCoordinator where
  registry : AgentRegistry
  active_tasks : List (Nat × TaskDefinition) := []
  task_queue : List TaskDefinition := []
  agent_assignments : List (String × List Nat) := []
  task_history : List TaskDefinition := []
deriving DecidableEq, Repr

/-- The 4×4 priority-alignment table of `_calculate_assignment_score`
(`priority_bonus.get(agent.priority_level, {}).get(task.priority.value, 0)`). -/
def priorityBonus (agent_level task_priority : String) : Rat :=
  if agent_level == "critical" then
    if task_priority == "critical" then 15 else if task_priority == "high" then 10
    else if task_priority == "medium" then 5 else if task_priority == "low" then 0 else 0
  else if agent_level == "high" then
    if task_priority == "critical" then 10 else if task_priority == "high" then 15
    else if task_priority == "medium" then 10 else if task_priority == "low" then 5 else 0
  else if agent_level == "medium" then
    if task_priority == "critical" then 5 else if task_priority == "high" then 10
    else if task_priority == "medium" then 15 else if task_priority == "low" then 10 else 0
  else if agent_level == "low" then
    if task_priority == "critical" then 0 else if task_priority == "high" then 5
    else if task_priority == "medium" then 10 else if task_priority == "low" then 15 else 0
  else 0

/-- `TaskCoordinator._calculate_assignment_score`: weighted availability,
priority-alignment, capability, preferred-agent and reliability score with a
workload penalty, normalised to 0–100. -/
def calculateAssignmentScore (agent : AgentProfile) (task : TaskDefinition) : Rat :=
  let score : Rat :=
    if agent.status.status == "available" then 20
    else if agent.status.workload_percentage < 50 then 10 else 0
  let max_score : Rat := 20
  let score := score + priorityBonus agent.priority_level task.priority.value
  let max_score := max_score + 15
  let sm : Rat × Rat :=
    if !task.requirements.isEmpty then
      let cap := task.requirements.foldl
        (fun (acc : Rat × Rat) req =>
          let mc := agent.capabilities.find? (fun c => c.name == req.capability)
          let cmax := acc.2 + req.weight * 10
          let cscore := match mc with
            | some c =>
                acc.1 + min (req.weight * 10)
                  (((c.proficiency_level : Rat) / (req.minimum_proficiency : Rat)) *
                    req.weight * 10)
            | none => if !req.required then acc.1 + req.weight * 2 else acc.1
          (cscore, cmax))
        (0, 0)
      ((if cap.2 > 0 then score + (cap.1 / cap.2) * 40 else score), max_score + 40)
    else (score + 20, max_score + 40)
  let score := sm.1
  let max_score := sm.2
  let score := if task.preferred_agents.contains agent.name then score + 15 else score
  let max_score := max_score + 15
  let score := score + (agent.metrics.reliability_score / 100) * 10
  let max_score := max_score + 10
  let score := score - ((agent.status.workload_percentage : Rat) / 100) * 5
  if max_score > 0 then max 0 (min 100 ((score / max_score) * 100)) else 0

/-- Stable descending insertion for candidate sorting:
`list.sort(key=score, reverse=True)` keeps equal-scored candidates in their
original order. -/
def insertScoreDesc (x : AgentAssignment) : List AgentAssignment → List AgentAssignment
  | [] => [x]
  | y :: ys =>
    if x.assignment_score > y.assignment_score then x :: y :: ys
    else y :: insertScoreDesc x ys

/-- Stable descending sort by `assignment_score`. -/
def sortScoreDesc (l : List AgentAssignment) : List AgentAssignment :=
  l.foldl (fun acc x => insertScoreDesc x acc) []

/-- `TaskCoordinator.find_suitable_agents`: available agents minus exclusions,
scored, thresholded at 30, sorted best-first, truncated to `limit`. -/
def find_suitable_agents (c : TaskCoordinator) (task : TaskDefinition)
    (limit : Nat := 5) : List AgentAssignment :=
  let suitable := c.registry.get_available_agents.filterMap (fun a =>
    if task.excluded_agents.contains a.name then none
    else
      let s := calculateAssignmentScore a task
      if 30 ≤ s then some ⟨a.name, task.task_id, s⟩ else none)
  (sortScoreDesc suitable).take limit

/-- Remove the first queue entry with the given task id (`list.remove` of the
found element in `assign_task`). -/
def removeFirstTask : List TaskDefinition → Nat → List TaskDefinition
  | [], _ => []
  | t :: ts, tid => if t.task_id == tid then ts else t :: removeFirstTask ts tid

/-- Dict write `active_tasks[task_id] = task`: rewrite existing key or append. -/
def putActive (l : List (Nat × TaskDefinition)) (tid : Nat) (t : TaskDefinition) :
    List (Nat × TaskDefinition) :=
  if l.any (fun p => p.1 == tid) then
    l.map (fun p => if p.1 == tid then (p.1, t) else p)
  else l ++ [(tid, t)]

/-- Dict lookup `active_tasks.get(task_id)`. -/
def lookupActive (l : List (Nat × TaskDefinition)) (tid : Nat) : Option TaskDefinition :=
  (l.find? (fun p => p.1 == tid)).map Prod.snd

/-- Dict delete `del active_tasks[task_id]`. -/
def eraseActive (l : List (Nat × TaskDefinition)) (tid : Nat) :
    List (Nat × TaskDefinition) :=
  l.filter (fun p => p.1 != tid)

/-- `agent_assignments` update in `assign_task`: create the list for a fresh
agent key, then append the task id (duplicates are kept, as in the source). -/
def pushAssignment (l : List (String × List Nat)) (agent : String) (tid : Nat) :
    List (String × List Nat) :=
  if l.any (fun p => p.1 == agent) then
    l.map (fun p => if p.1 == agent then (p.1, p.2 ++ [tid]) else p)
  else l ++ [(agent, [tid])]

/-- `TaskCoordinator.assign_task`. The task is searched in the queue first
(and removed from it), else in `active_tasks`; an unknown task id or unknown
agent returns `false`. There is no check of the task's current status: a task
already in `active_tasks` is simply re-assigned. -/
def assign_task (c : TaskCoordinator) (task_id : Nat) (agent_name : String)
    (now : Nat) : Bool × TaskCoordinator :=
  let fromQueue := c.task_queue.find? (fun t => t.task_id == task_id)
  let c1 := match fromQueue with
    | some _ => { c with task_queue := removeFirstTask c.task_queue task_id }
    | none => c
  let task? := match fromQueue with
    | some t => some t
    | none => lookupActive c.active_tasks task_id
  match task? with
  | none => (false, c1)
  | some task =>
    match c1.registry.get_agent agent_name with
    | none => (false, c1)
    | some _ =>
      let task := { task with
        status := .assigned, assigned_agents := [agent_name], assigned_at := some now }
      (true, { c1 with
        active_tasks := putActive c1.active_tasks task_id task,
        agent_assignments := pushAssignment c1.agent_assignments agent_name task_id,
        registry := c1.registry.update_agent_status agent_name "busy" (some task.title) })

/-- `TaskCoordinator.start_task`: requires the task in `active_tasks` and the
agent among its `assigned_agents`; no status check beyond that. -/
def start_task (c : TaskCoordinator) (task_id : Nat) (agent_name : String)
    (now : Nat) : Bool × TaskCoordinator :=
  match lookupActive c.active_tasks task_id with
  | none => (false, c)
  | some task =>
    if !task.assigned_agents.contains agent_name then (false, c)
    else
      let task := { task with status := .in_progress, started_at := some now }
      (true, { c with active_tasks := putActive c.active_tasks task_id task })

/-- `TaskCoordinator._attempt_immediate_assignment`: if the best suitable
candidate's agent is available, assign the task to it (the returned boolean of
`assign_task` is ignored by the source). -/
def attemptImmediateAssignment (c : TaskCoordinator) (task : TaskDefinition)
    (now : Nat) : TaskCoordinator :=
  match find_suitable_agents c task 5 with
  | [] => c
  | best :: _ =>
    match c.registry.get_agent best.agent_name with
    | some ap =>
        if ap.status.status == "available" then
          (assign_task c task.task_id best.agent_name now).2
        else c
    | none => c

/-- `TaskCoordinator.create_task`: append the new task to the queue, then
attempt immediate assignment. Note that dependencies are not consulted here. -/
def create_task (c : TaskCoordinator) (task : TaskDefinition) (now : Nat) :
    TaskCoordinator :=
  let c1 := { c with task_queue := c.task_queue ++ [task] }
  attemptImmediateAssignment c1 task now

/-- The per-task dependency loop body of `_check_dependent_tasks`: walk the
dependency list, marking dependencies on the completed task as `"completed"`,
and stop at the first unmet prerequisite (dependencies after the break point
are left un-updated, as in the source). Returns the updated list and whether
all prerequisites encountered were met. -/
def checkAndUpdateDeps (completed_id : Nat) :
    List TaskDependency → List TaskDependency × Bool
  | [] => ([], true)
  | d :: ds =>
    let d' := if d.task_id == completed_id then { d with status := "completed" } else d
    if d'.dependency_type == "prerequisite" && d'.status != "completed" then
      (d' :: ds, false)
    else
      let r := checkAndUpdateDeps completed_id ds
      (d' :: r.1, r.2)

/-- One iteration of the `_check_dependent_tasks` loop: the task's dependency
list is updated in place (modelled by rewriting the queue entry with the same
id), and when the prerequisites are all met the task gets an
immediate-assignment attempt. -/
def dependentScanStep (completed_id now : Nat) (st : TaskCoordinator)
    (t : TaskDefinition) : TaskCoordinator :=
  let r := checkAndUpdateDeps completed_id t.dependencies
  let t' := { t with dependencies := r.1 }
  let q := st.task_queue.map (fun u => if u.task_id == t.task_id then t' else u)
  let st' := { st with task_queue := q }
  if r.2 then attemptImmediateAssignment st' t' now else st'

/-- `TaskCoordinator._check_dependent_tasks`: iterate `dependentScanStep` over
a snapshot of the queue. -/
def checkDependentTasks (c : TaskCoordinator) (completed_id : Nat) (now : Nat) :
    TaskCoordinator :=
  c.task_queue.foldl (dependentScanStep completed_id now) c

/-- `TaskCoordinator.complete_task`. Returns `none` for an uncaught exception:
`agent_assignments[agent].remove(task_id)` raises `ValueError` when the id is
absent, and the metrics update dereferences `get_agent(agent_name)` without a
`None` check. On success the task moves to history, the agent is freed when it
has no remaining assignments, its metrics are bumped, and dependent queued
tasks are re-scanned. -/
def complete_task (c : TaskCoordinator) (task_id : Nat) (agent_name : String)
    (result_data : Option (List (String × String))) (feedback : Option Rat)
    (now : Nat) : Option (Bool × TaskCoordinator) :=
  match lookupActive c.active_tasks task_id with
  | none => some (false, c)
  | some task =>
    if !task.assigned_agents.contains agent_name then some (false, c)
    else
      let task := { task with
        status := .completed, completed_at := some now,
        result_data := result_data, feedback_score := feedback }
      let hist := c.task_history ++ [task]
      let active := eraseActive c.active_tasks task_id
      let c1 := { c with task_history := hist, active_tasks := active }
      let step2 : Option TaskCoordinator :=
        match c1.agent_assignments.find? (fun p => p.1 == agent_name) with
        | none => some c1
        | some p =>
          if !p.2.contains task_id then none
          else
            let rest := p.2.eraseP (fun x => x == task_id)
            let assigns := c1.agent_assignments.map
              (fun q => if q.1 == agent_name then (q.1, rest) else q)
            let c2 := { c1 with agent_assignments := assigns }
            if rest.isEmpty then
              some { c2 with registry :=
                c2.registry.update_agent_status agent_name "available" none }
            else some c2
      match step2 with
      | none => none
      | some c2 =>
        let completion_time : Option Rat :=
          task.started_at.map (fun s => ((now - s : Nat) : Rat))
        match c2.registry.get_agent agent_name with
        | none => none
        | some ap =>
          let reg := c2.registry.update_agent_metrics agent_name
            (ap.metrics.total_tasks_completed + 1) completion_time (some now)
          let c3 := { c2 with registry := reg }
          some (true, checkDependentTasks c3 task_id now)

/-- The pure dependency check of `process_task_queue` (no mutation in this
pass): a task is eligible iff no prerequisite dependency has a status other
than `"completed"`. -/
def taskDepsMet (t : TaskDefinition) : Bool :=
  t.dependencies.all
    (fun d => !(d.dependency_type == "prerequisite" && d.status != "completed"))

/-- One iteration of the `process_task_queue` loop: skip the task when a
prerequisite is unmet, otherwise run the best-candidate assignment (whose body
in the source is the same as `_attempt_immediate_assignment`). -/
def processQueueStep (now : Nat) (st : TaskCoordinator) (t : TaskDefinition) :
    TaskCoordinator :=
  if taskDepsMet t then attemptImmediateAssignment st t now else st

/-- `TaskCoordinator.process_task_queue`: for each queued task (snapshot), skip
it when a prerequisite is unmet; otherwise assign it to the best suitable
available candidate. -/
def process_task_queue (c : TaskCoordinator) (now : Nat) : TaskCoordinator :=
  c.task_queue.foldl (processQueueStep now) c

/-- Python substring test `needle in hay` (the empty needle always matches). -/
def strContains (hay needle : String) : Bool :=
  if needle == "" then true else (hay.splitOn needle).length > 1

/-- First-occurrence deduplication (Python `set` membership, counted once per
distinct element). -/
def dedupStrings (l : List String) : List String :=
  l.foldl (fun acc x => if acc.contains x then acc else acc ++ [x]) []

/-- Routing rule (`RoutingRule` in `routing_manager.py`). -/
structure RoutingRule where
  name : String := ""
  task_patterns : List String := []
  capability_requirements : List String := []
  priority_levels : List String := []
  preferred_agents : List String := []
  excluded_agents : List String := []
  agent_categories : List String := []
  weight : Rat := 1
  enabled : Bool := true
deriving DecidableEq, Repr

/-- `RoutingManager._evaluate_routing_rule`: score contributions are summed in
source order — task patterns (wildcard +10, keyword +20), capability overlap
(up to +30), preferred agent (+40), then the excluded-agent check resets the
score to 0, and AFTER that reset the category (+25) and priority-level (+15)
contributions are still added. -/
def evaluateRoutingRule (reg : AgentRegistry) (rule : RoutingRule)
    (task : TaskDefinition) (agent_name : String) : Rat :=
  let score : Rat := 0
  let score :=
    if !rule.task_patterns.isEmpty then
      let tl := task.title.toLower
      let dl := task.description.toLower
      rule.task_patterns.foldl
        (fun s p =>
          if p == "*" then s + 10
          else if strContains tl p.toLower || strContains dl p.toLower then s + 20
          else s)
        score
    else score
  let score :=
    if !rule.capability_requirements.isEmpty then
      match reg.get_agent agent_name with
      | some agent =>
        let agentCaps := dedupStrings (agent.capabilities.map (fun c => c.name))
        let matching :=
          (dedupStrings rule.capability_requirements).filter agentCaps.contains
        if !matching.isEmpty then
          score + ((matching.length : Rat) / (rule.capability_requirements.length : Rat)) * 30
        else score
      | none => score
    else score
  let score :=
    if !rule.preferred_agents.isEmpty && rule.preferred_agents.contains agent_name then
      score + 40
    else score
  let score :=
    if !rule.excluded_agents.isEmpty && rule.excluded_agents.contains agent_name then
      (0 : Rat)
    else score
  let score :=
    if !rule.agent_categories.isEmpty then
      match reg.get_agent agent_name with
      | some agent =>
          if rule.agent_categories.contains agent.category then score + 25 else score
      | none => score
    else score
  let score :=
    if !rule.priority_levels.isEmpty && rule.priority_levels.contains task.priority.value then
      score + 15
    else score
  score

/-- Stable ascending insertion by agent name, matching
`available_agents.sort(key=lambda a: a.name)`. -/
def insertByName (x : AgentProfile) : List AgentProfile → List AgentProfile
  | [] => [x]
  | y :: ys => if x.name < y.name then x :: y :: ys else y :: insertByName x ys

/-- Stable ascending sort of agents by name. -/
def sortByName (l : List AgentProfile) : List AgentProfile :=
  l.foldl (fun acc x => insertByName x acc) []

/-- `RoutingManager._route_with_round_robin`, with the `"general"` category
counter made explicit. Returns the selected agent's name, the fixed confidence
score of 70, and the incremented counter; `none` models the exception raised
when no agent is available. -/
def routeWithRoundRobin (reg : AgentRegistry) (counter : Nat) :
    Option (String × Rat × Nat) :=
  let avail := reg.get_available_agents
  if avail.isEmpty then none
  else
    let sorted := sortByName avail
    match sorted[counter % sorted.length]? with
    | some a => some (a.name, 70, counter + 1)
    | none => none

/-- Workflow status (`WorkflowStatus` enum in `models/project_tracking.py`). -/
inductive WorkflowStatus where
  | pending | in_progress | running | completed | failed | cancelled | paused
deriving DecidableEq, Repr

/-- Workflow execution mode (`WorkflowType`). -/
inductive WorkflowType where
  | sequential | parallel | conditional | pipeline | reactive
deriving DecidableEq, Repr

/-- Workflow step (`WorkflowStep` in `workflow_engine.py`). -/
structure WorkflowStep where
  step_id : Nat
  name : String := ""
  description : String := ""
  required_capabilities : List String := []
  preferred_agents : List String := []
  assigned_agent : Option String := none
  depends_on : List Nat := []
  task_definition : Option TaskDefinition := none
  max_retries : Nat := 2
  status : TaskStatus := .pending
  started_at : Option Nat := none
  completed_at : Option Nat := none
  error_message : Option String := none
  retry_count : Nat := 0
deriving DecidableEq, Repr

/-- Workflow definition (`WorkflowDefinition`), restricted to the fields the
execution paths read or write. -/
structure WorkflowDefinition where
  name : String := ""
  workflow_type : WorkflowType := .sequential
  priority : TaskPriority := .medium
  steps : List WorkflowStep := []
  max_concurrent_steps : Nat := 3
  auto_retry_failed_steps : Bool := true
  status : WorkflowStatus := .pending
  success_rate : Rat := 0
  overall_progress : Rat := 0
deriving DecidableEq, Repr

/-- Insertion into a Python `set` of step ids (`completed_step_ids.add`). -/
def setAdd (l : List Nat) (x : Nat) : List Nat :=
  if l.contains x then l else l ++ [x]

/-- `WorkflowEngine._check_step_dependencies`: every id in `depends_on` must be
in the execution's completed set. -/
def checkStepDependencies (step : WorkflowStep) (completed : List Nat) : Bool :=
  step.depends_on.all completed.contains

/-- First-occurrence deduplication of agents by name
(`{agent.name: agent for agent in suitable_agents}.values()` keeps the first
inserted object for a key since duplicates are the same profile). -/
def dedupByName (l : List AgentProfile) : List AgentProfile :=
  l.foldl (fun acc a => if acc.any (fun b => b.name == a.name) then acc else acc ++ [a]) []

/-- Python `max(agents, key=reliability)`: the first agent attaining the
maximal reliability score. -/
def maxByReliability : List AgentProfile → Option AgentProfile
  | [] => none
  | a :: rest =>
    some (rest.foldl
      (fun b x => if b.metrics.reliability_score < x.metrics.reliability_score then x else b)
      a)

/-- `WorkflowEngine._assign_agent_to_step`: first available preferred agent
holding all required capabilities; otherwise the union of agents by required
capability, deduplicated, filtered to available, highest reliability first. -/
def assignAgentToStep (reg : AgentRegistry) (step : WorkflowStep) :
    Option AgentProfile :=
  let pref := step.preferred_agents.findSome? (fun n =>
    match reg.get_agent n with
    | some a =>
        if a.status.status == "available" &&
            step.required_capabilities.all
              (fun rc => a.capabilities.any (fun c => c.name == rc)) then
          some a
        else none
    | none => none)
  match pref with
  | some a => some a
  | none =>
    let suitable := step.required_capabilities.foldl
      (fun acc cap => acc ++ reg.get_agents_by_capability cap) []
    let uniqueAgents := dedupByName suitable
    let avail := uniqueAgents.filter (fun a => a.status.status == "available")
    maxByReliability avail

/-- `WorkflowEngine._execute_workflow_step`: resolve an agent if the step has
none, materialize a `TaskDefinition` if the step has none (with a fresh id
`fresh_id`, never enqueued through `create_task`), mark the step in progress,
then drive assign → start → complete through the coordinator, returning
`false` at the first refusal. `none` models an uncaught exception from
`complete_task`. -/
def executeWorkflowStep (coord : TaskCoordinator) (step : WorkflowStep)
    (wfPriority : TaskPriority) (fresh_id : Nat) (now : Nat) :
    Option (Bool × WorkflowStep × TaskCoordinator) :=
  let resolved : Option WorkflowStep :=
    match step.assigned_agent with
    | some _ => some step
    | none =>
      match assignAgentToStep coord.registry step with
      | some a => some { step with assigned_agent := some a.name }
      | none => none
  match resolved with
  | none => some (false, step, coord)
  | some step1 =>
    match step1.assigned_agent with
    | none => some (false, step1, coord)
    | some agent =>
      let step2 :=
        match step1.task_definition with
        | some _ => step1
        | none =>
          let td : TaskDefinition :=
            { task_id := fresh_id, title := step1.name,
              description := step1.description, priority := wfPriority,
              preferred_agents := [agent] }
          { step1 with task_definition := some td }
      match step2.task_definition with
      | none => some (false, step2, coord)
      | some td =>
        let step3 := { step2 with status := .in_progress, started_at := some now }
        let r1 := assign_task coord td.task_id agent now
        if !r1.1 then some (false, step3, r1.2)
        else
          let r2 := start_task r1.2 td.task_id agent now
          if !r2.1 then some (false, step3, r2.2)
          else
            match complete_task r2.2 td.task_id agent
                (some [("step_completed", "true")]) none now with
            | none => none
            | some p => some (p.1, step3, p.2)

/-- `WorkflowEngine._complete_workflow`: unconditionally sets the workflow
status to completed and derives the success rate from the completed-step
count. -/
def completeWorkflow (wf : WorkflowDefinition) (completed : List Nat) :
    WorkflowDefinition :=
  { wf with
    status := .completed,
    success_rate :=
      if 0 < wf.steps.length then
        ((completed.length : Rat) / (wf.steps.length : Rat)) * 100
      else 0,
    overall_progress := 100 }

/-- `WorkflowEngine._fail_workflow`. -/
def failWorkflow (wf : WorkflowDefinition) : WorkflowDefinition :=
  { wf with status := .failed }

/-- The eligible steps of a fresh parallel execution: dependencies are checked
against the new execution's empty `completed_step_ids`, and ineligible steps
are never dispatched. -/
def parallelEligibleSteps (wf : WorkflowDefinition) : List WorkflowStep :=
  wf.steps.filter (fun s => checkStepDependencies s [])

/-- The result-processing loop of `_execute_parallel_workflow`: `results` are
the `asyncio.gather(..., return_exceptions=True)` outcomes of the dispatched
step tasks (`Except.error` = an exception object, `.ok b` = the boolean
returned by `_execute_step_with_tracking`). The loop pairs `results[i]` with
`workflow.steps[i]` and treats every non-exception result — including `ok
false` — as step success. -/
def applyParallelResults (now : Nat) (steps : List WorkflowStep)
    (results : List (Except String Bool)) :
    List WorkflowStep × List Nat × List Nat :=
  let paired := List.zip steps results
  let updStep := fun (p : WorkflowStep × Except String Bool) =>
    match p.2 with
    | .error msg => { p.1 with status := TaskStatus.failed, error_message := some msg }
    | .ok _ => { p.1 with status := TaskStatus.completed, completed_at := some now }
  let steps' := paired.map updStep ++ steps.drop results.length
  let ids := paired.foldl
    (fun (acc : List Nat × List Nat) p =>
      match p.2 with
      | .error _ => (acc.1, setAdd acc.2 p.1.step_id)
      | .ok _ => (setAdd acc.1 p.1.step_id, acc.2))
    ([], [])
  (steps', ids.1, ids.2)

/-- `_execute_workflow_steps` for a parallel workflow: the parallel path never
raises, so `_complete_workflow` always runs afterwards. Returns the final
workflow plus the execution's completed and failed step-id sets. -/
def executeParallelWorkflow (wf : WorkflowDefinition)
    (results : List (Except String Bool)) (now : Nat) :
    WorkflowDefinition × List Nat × List Nat :=
  let upd := applyParallelResults now wf.steps results
  let wf1 := { wf with steps := upd.1 }
  (completeWorkflow wf1 upd.2.1, upd.2.1, upd.2.2)

/-- The dispatch bookkeeping of `_execute_pipeline_workflow`. The loop keeps
local `active_steps` and `completed_steps`; when a step's dependencies are not
all in `completed_steps` the source only sleeps 0.1 s and then dispatches the
step anyway, so the dispatch is unconditional. When the window is full the
oldest active step is awaited and added to `completed_steps`; remaining steps
are drained at the end. Returns the dispatch log — each dispatched step id
with the `completed_steps` set at its dispatch — and the final completed
set. -/
def executePipelineWorkflow (wf : WorkflowDefinition) :
    List (Nat × List Nat) × List Nat :=
  let f := fun (st : List Nat × List Nat × List (Nat × List Nat)) (step : WorkflowStep) =>
    let active := st.1
    let completedL := st.2.1
    let log := st.2.2 ++ [(step.step_id, completedL)]
    let active := active ++ [step.step_id]
    if wf.max_concurrent_steps ≤ active.length then
      match active with
      | [] => (active, completedL, log)
      | h :: t => (t, setAdd completedL h, log)
    else (active, completedL, log)
  let final := wf.steps.foldl f ([], [], [])
  (final.2.2, final.1.foldl setAdd final.2.1)

/-- `_execute_sequential_workflow` over a single-workflow attempt oracle
`exec` (the awaited boolean of the n-th `_execute_workflow_step` call).
Failed steps retry at most once in place: on first failure the loop raises
unless `auto_retry_failed_steps` holds and `retry_count < max_retries`;
otherwise it re-executes exactly once and raises if that attempt also fails.
Returns `(raised?, completed ids, failed ids, total execution attempts)`. -/
def executeSequentialWorkflow (wf : WorkflowDefinition) (exec : Nat → Bool) :
    Bool × List Nat × List Nat × Nat :=
  go wf.auto_retry_failed_steps exec wf.steps [] [] 0
where
  /-- loop body of the sequential executor -/
  go (autoRetry : Bool) (exec : Nat → Bool) :
      List WorkflowStep → List Nat → List Nat → Nat → Bool × List Nat × List Nat × Nat
  | [], compl, fail, n => (false, compl, fail, n)
  | step :: rest, compl, fail, n =>
    if !checkStepDependencies step compl then go autoRetry exec rest compl fail n
    else if exec n then go autoRetry exec rest (setAdd compl step.step_id) fail (n + 1)
    else
      let fail1 := setAdd fail step.step_id
      if !autoRetry || step.max_retries ≤ step.retry_count then
        (true, compl, fail1, n + 1)
      else if exec (n + 1) then
        go autoRetry exec rest (setAdd compl step.step_id) fail1 (n + 2)
      else (true, compl, setAdd fail1 step.step_id, n + 2)

/-- `_execute_workflow_steps` for a sequential workflow: a raise from the loop
is caught and routed to `_fail_workflow`, otherwise `_complete_workflow`
runs. -/
def runSequentialWorkflow (wf : WorkflowDefinition) (exec : Nat → Bool) :
    WorkflowDefinition × Nat :=
  let r := executeSequentialWorkflow wf exec
  (if r.1 then failWorkflow wf else completeWorkflow wf r.2.1, r.2.2.2)

/-! ### Concrete fixtures used by the claim theorems -/

/-- A single parallel workflow step with no dependencies. -/
def c1Step : WorkflowStep := { step_id := 1, name := "api-tests" }

/-- A parallel workflow with one eligible step. -/
def c1Workflow : WorkflowDefinition :=
  { workflow_type := .parallel, steps := [c1Step] }

/-- First pipeline step, no dependencies. -/
def c3StepA : WorkflowStep := { step_id := 1, name := "collect" }

/-- Second pipeline step, depending on the first. -/
def c3StepB : WorkflowStep := { step_id := 2, name := "analyze", depends_on := [1] }

/-- A pipeline workflow with a 2-wide concurrency window and a dependent
second step. -/
def c3Workflow : WorkflowDefinition :=
  { workflow_type := .pipeline, max_concurrent_steps := 2, steps := [c3StepA, c3StepB] }

/-- A sequential step allowing two retries. -/
def c5Step : WorkflowStep := { step_id := 1, name := "flaky", max_retries := 2 }

/-- A sequential workflow holding just `c5Step`, with the default
`auto_retry_failed_steps = true`. -/
def c5Workflow : WorkflowDefinition := { steps := [c5Step] }

/-- A step execution oracle that fails on every attempt. -/
def c5NeverSucceeds : Nat → Bool := fun _ => false

/-- An agent excluded by `c6Rule` but matching its category filter. -/
def c6Agent : AgentProfile := { name := "@excluded-dev", category := "core_development" }

/-- A registry holding only `c6Agent`. -/
def c6Registry : AgentRegistry := { agents := [("@excluded-dev", c6Agent)] }

/-- An enabled rule that both excludes `@excluded-dev` and matches its
category. -/
def c6Rule : RoutingRule :=
  { name := "Code Quality Routing",
    excluded_agents := ["@excluded-dev"],
    agent_categories := ["core_development"] }

/-- A task with no requirements, used to evaluate `c6Rule`. -/
def c6Task : TaskDefinition := { task_id := 1, title := "t", description := "d" }

/-- An available agent for the C2 fixtures. -/
def c2Agent : AgentProfile := { name := "@a" }

/-- A task that is already in `assigned` status, held in `active_tasks`. -/
def c2Task : TaskDefinition :=
  { task_id := 7, title := "x", description := "y",
    status := .assigned, assigned_agents := ["@a"], assigned_at := some 0 }

/-- Coordinator state in which task 7 is already assigned to `@a`. -/
def c2State : TaskCoordinator :=
  { registry := { agents := [("@a", c2Agent)] },
    active_tasks := [(7, c2Task)],
    agent_assignments := [("@a", [7])] }

/-- An available agent for the C4 fixtures. -/
def c4Agent : AgentProfile := { name := "@a" }

/-- A coordinator with one available agent and empty queues. -/
def c4Coordinator : TaskCoordinator := { registry := { agents := [("@a", c4Agent)] } }

/-- A task with an unresolved prerequisite dependency on task 99. -/
def c4Task : TaskDefinition :=
  { task_id := 1, title := "t", description := "d",
    dependencies := [{ task_id := 99 }] }

/-! ### Claim theorems: code-bug evaluations and counterexamples -/

/-- C1: in a parallel workflow, a step whose gathered result is an exception is
recorded in `failed_step_ids` with status `failed`, yet `_complete_workflow`
still marks the workflow `completed` — and a step whose execution returned
`False` is even recorded as `completed`. This contradicts the claim that the
workflow's final status is `failed` whenever a step ends failed. -/
theorem C1_parallel_step_failure_still_completes_workflow :
    ((executeParallelWorkflow c1Workflow [Except.error "CancelledError"] 0).1.steps.map
        WorkflowStep.status) = [TaskStatus.failed]
    ∧ (executeParallelWorkflow c1Workflow [Except.error "CancelledError"] 0).2.2 = [1]
    ∧ (executeParallelWorkflow c1Workflow [Except.error "CancelledError"] 0).1.status
        = WorkflowStatus.completed
    ∧ ((executeParallelWorkflow c1Workflow [Except.ok false] 0).1.steps.map
        WorkflowStep.status) = [TaskStatus.completed]
    ∧ (parallelEligibleSteps c1Workflow).length = 1
    ∧ WorkflowStatus.completed ≠ WorkflowStatus.failed := by
  decide

/-- C3: in a pipeline workflow with a 2-step window, the second step is
dispatched while its dependency (step 1) is not yet in the loop's completed
set: the dependency check fails for it at dispatch time, contradicting the
dispatch invariant claimed for all execution modes. -/
theorem C3_pipeline_dispatches_step_with_unmet_dependency :
    (executePipelineWorkflow c3Workflow).1 = [(1, []), (2, [])]
    ∧ c3StepB.depends_on = [1]
    ∧ checkStepDependencies c3StepB [] = false := by
  decide

/-- C5 counterexample: a never-succeeding step with `max_retries = 2` is
executed exactly 2 times — not the claimed `max_retries + 1 = 3` — before the
sequential loop raises and the workflow is marked failed. -/
theorem C5_counterexample_two_attempts_not_three :
    (executeSequentialWorkflow c5Workflow c5NeverSucceeds).2.2.2 = 2
    ∧ c5Step.max_retries + 1 = 3
    ∧ (executeSequentialWorkflow c5Workflow c5NeverSucceeds).1 = true
    ∧ (runSequentialWorkflow c5Workflow c5NeverSucceeds).1.status = WorkflowStatus.failed := by
  decide

/-- C6: for an enabled rule listing `@excluded-dev` among `excluded_agents`,
the evaluation still returns 25 (not 0) because the category bonus is added
after the exclusion reset: the rule's contribution is nonzero, contradicting
the claim. -/
theorem C6_excluded_agent_rule_contribution_nonzero :
    c6Rule.enabled = true
    ∧ c6Rule.excluded_agents.contains "@excluded-dev" = true
    ∧ evaluateRoutingRule c6Registry c6Rule c6Task "@excluded-dev" = 25
    ∧ (25 : Rat) ≠ 0 := by
  refine ⟨rfl, rfl, ?_, by norm_num⟩
  simp [evaluateRoutingRule, c6Registry, c6Rule, c6Task, c6Agent,
    AgentRegistry.get_agent, dedupStrings]

/-- C2 counterexample: `assign_task` performs no task-status check, so
assigning task 7 — already in `assigned` status with agent `@a` — returns
`true`, not the claimed `false`. -/
theorem C2_counterexample_assign_already_assigned_returns_true :
    c2Task.status = TaskStatus.assigned
    ∧ (lookupActive c2State.active_tasks 7) = some c2Task
    ∧ (assign_task c2State 7 "@a" 1).1 = true := by
  decide

/-- C4 counterexample: `create_task` attempts immediate assignment without
consulting dependencies, so a task with an unresolved prerequisite (on task
99) is assigned right at creation, contradicting the claim that no coordinator
operation assigns it. -/
theorem C4_counterexample_create_task_assigns_despite_unmet_prerequisite :
    taskDepsMet c4Task = false
    ∧ ((create_task c4Coordinator c4Task 0).active_tasks.map
        (fun p => (p.1, p.2.status))) = [(1, TaskStatus.assigned)] := by
  constructor
  · decide
  · norm_num +decide [create_task, attemptImmediateAssignment, find_suitable_agents,
      calculateAssignmentScore, priorityBonus, sortScoreDesc, insertScoreDesc,
      assign_task, removeFirstTask, putActive, lookupActive, pushAssignment,
      AgentRegistry.get_agent, AgentRegistry.get_available_agents,
      AgentRegistry.update_agent_status, updateStatusProfile, TaskPriority.value,
      List.filterMap_cons, List.filterMap_nil,
      c4Coordinator, c4Task, c4Agent]

/-! ### C10: workload bound under status updates -/

/-- Apply a sequence of `update_agent_status` calls
`(agent_name, status, current_task)` to the registry. -/
def applyStatusUpdates (r : AgentRegistry)
    (us : List (String × String × Option String)) : AgentRegistry :=
  us.foldl (fun st u => st.update_agent_status u.1 u.2.1 u.2.2) r

/-- A single profile status update keeps the workload percentage at most
100. -/
theorem updateStatusProfile_workload_le (a : AgentProfile) (s : String)
    (ct : Option String) (h : a.status.workload_percentage ≤ 100) :
    (updateStatusProfile a s ct).status.workload_percentage ≤ 100 := by
  unfold updateStatusProfile
  by_cases h1 : s == "busy"
  · simp only [h1, if_true]
    omega
  · by_cases h2 : s == "available"
    · simp [h1, h2]
    · simp [h1, h2]
      exact h

/-- One registry-level status update keeps every workload percentage at most
100. -/
theorem update_agent_status_workload_le (r : AgentRegistry) (n s : String)
    (ct : Option String)
    (h : ∀ p ∈ r.agents, p.2.status.workload_percentage ≤ 100) :
    ∀ p ∈ (r.update_agent_status n s ct).agents,
      p.2.status.workload_percentage ≤ 100 := by
  intro p hp
  unfold AgentRegistry.update_agent_status at hp
  simp only [List.mem_map] at hp
  obtain ⟨q, hq, hfq⟩ := hp
  by_cases hqn : q.1 == n
  · rw [← hfq]; simp only [hqn, if_true]
    exact updateStatusProfile_workload_le _ _ _ (h q hq)
  · rw [← hfq]
    rw [if_neg (by simp [hqn])]
    exact h q hq

/-- C10: every agent profile's workload percentage stays within [0, 100] (the
lower bound is by the `Nat` representation) across any sequence of
`update_agent_status` calls; a `"busy"` update adds 25 capped at 100, an
`"available"` update resets the workload to 0 and clears `current_task`, and
any other status value leaves the workload unchanged. -/
theorem C10_workload_bounded (r : AgentRegistry)
    (us : List (String × String × Option String))
    (h : ∀ p ∈ r.agents, p.2.status.workload_percentage ≤ 100) :
    (∀ p ∈ (applyStatusUpdates r us).agents, p.2.status.workload_percentage ≤ 100)
    ∧ (∀ (a : AgentProfile) (ct : Option String),
        (updateStatusProfile a "busy" ct).status.workload_percentage
          = min 100 (a.status.workload_percentage + 25)
        ∧ (updateStatusProfile a "available" ct).status.workload_percentage = 0
        ∧ (updateStatusProfile a "available" ct).status.current_task = none
        ∧ ∀ s, s ≠ "busy" → s ≠ "available" →
            (updateStatusProfile a s ct).status.workload_percentage
              = a.status.workload_percentage) := by
  constructor
  · unfold applyStatusUpdates
    induction us generalizing r with
    | nil => exact h
    | cons u rest ih =>
      simp only [List.foldl_cons]
      exact ih _ (update_agent_status_workload_le r u.1 u.2.1 u.2.2 h)
  · intro a ct
    refine ⟨by simp [updateStatusProfile], by simp [updateStatusProfile],
      by simp [updateStatusProfile], ?_⟩
    intro s hs1 hs2
    have b1 : (s == "busy") = false := by simp [hs1]
    have b2 : (s == "available") = false := by simp [hs2]
    simp [updateStatusProfile, b1, b2]

/-- Status record at 90% workload for the C10 witness. -/
def c10Status : AgentStatus := { status := "available", workload_percentage := 90 }

/-- Agent at 90% workload for the C10 witness. -/
def c10Agent : AgentProfile := { name := "@a", status := c10Status }

/-- One-agent registry for the C10 witness. -/
def c10Registry : AgentRegistry := { agents := [("@a", c10Agent)] }

/-- Update sequence for the C10 witness. -/
def c10Updates : List (String × String × Option String) :=
  [("@a", "busy", some "t1"), ("@a", "busy", some "t2"),
   ("@a", "offline", none), ("@a", "available", none)]

/-- Concrete instantiation of `C10_workload_bounded`: a registry with one
agent at workload 90 run through busy/busy/offline/available updates keeps
`@a`'s workload at most 100. -/
theorem C10_workload_bounded_witness :
    (((applyStatusUpdates c10Registry c10Updates).get_agent "@a").map
        (fun a => a.status.workload_percentage)).getD 0 ≤ 100 := by
  have h := (C10_workload_bounded c10Registry c10Updates (by decide)).1
  cases hfind : (applyStatusUpdates c10Registry c10Updates).get_agent "@a" with
  | none => simp
  | some a =>
    have hmem : ∃ p ∈ (applyStatusUpdates c10Registry c10Updates).agents, p.2 = a := by
      unfold AgentRegistry.get_agent at hfind
      cases hf2 : (applyStatusUpdates c10Registry c10Updates).agents.find?
          (fun p => p.1 == "@a") with
      | none =>
        rw [hf2] at hfind
        exact absurd hfind (by simp)
      | some p =>
        rw [hf2] at hfind
        refine ⟨p, List.mem_of_find?_eq_some hf2, ?_⟩
        injection hfind
    obtain ⟨p, hp, hpa⟩ := hmem
    show a.status.workload_percentage ≤ 100
    rw [← hpa]
    exact h p hp

/-! ### C8: round-robin cycling -/

/-- Inserting into the name-sorted list grows it by one. -/
theorem insertByName_length (x : AgentProfile) (l : List AgentProfile) :
    (insertByName x l).length = l.length + 1 := by
  induction l with
  | nil => rfl
  | cons y ys ih =>
    unfold insertByName
    by_cases h : x.name < y.name
    · simp [h]
    · simp [h, ih]

/-- The insertion-sort fold preserves total length. -/
theorem sortByName_foldl_length (l : List AgentProfile) (acc : List AgentProfile) :
    (l.foldl (fun acc x => insertByName x acc) acc).length = acc.length + l.length := by
  induction l generalizing acc with
  | nil => simp
  | cons y ys ih =>
    simp only [List.foldl_cons]
    rw [ih, insertByName_length]
    simp only [List.length_cons]
    omega

/-- Sorting by name preserves length. -/
theorem sortByName_length (l : List AgentProfile) :
    (sortByName l).length = l.length := by
  unfold sortByName
  rw [sortByName_foldl_length]
  simp

/-- C8: with the name-sorted available-agent list held constant at 3 agents,
four consecutive round-robin calls use counters c0, c0+1, c0+2, c0+3 (each
call increments the counter by one), the confidence score is fixed at 70, and
the call at counter c0+3 selects the same agent as the call at counter c0. -/
theorem C8_round_robin_cycles (reg : AgentRegistry) (c0 : Nat)
    (h3 : (sortByName reg.get_available_agents).length = 3) :
    ((routeWithRoundRobin reg c0).map (fun p => p.1)
        = (routeWithRoundRobin reg (c0 + 3)).map (fun p => p.1))
    ∧ (routeWithRoundRobin reg c0).map (fun p => p.2.1) = some 70
    ∧ (routeWithRoundRobin reg c0).map (fun p => p.2.2) = some (c0 + 1) := by
  have hlen : reg.get_available_agents.length = 3 := by
    rw [← sortByName_length]; exact h3
  have hne : reg.get_available_agents.isEmpty = false := by
    cases hl : reg.get_available_agents with
    | nil => rw [hl] at hlen; simp at hlen
    | cons a as => simp
  have hm : c0 % 3 < (sortByName reg.get_available_agents).length := by
    rw [h3]; exact Nat.mod_lt _ (by norm_num)
  have e1 : (sortByName reg.get_available_agents)[c0 % 3]?
      = some ((sortByName reg.get_available_agents).get ⟨c0 % 3, hm⟩) := by
    rw [List.getElem?_eq_getElem hm]
    simp
  unfold routeWithRoundRobin
  simp only [hne, Bool.false_eq_true, if_false, h3, Nat.add_mod_right, e1,
    Option.map_some]
  exact ⟨rfl, rfl, rfl⟩

/-- Three-agent registry (names deliberately unsorted) for the C8 witness. -/
def c8Registry : AgentRegistry :=
  { agents := [("b", { name := "b" }), ("a", { name := "a" }), ("c", { name := "c" })] }

/-- Concrete instantiation of `C8_round_robin_cycles` with three available
agents and initial counter 0. -/
theorem C8_round_robin_cycles_witness :
    ((routeWithRoundRobin c8Registry 0).map (fun p => p.1)
        = (routeWithRoundRobin c8Registry (0 + 3)).map (fun p => p.1))
    ∧ (routeWithRoundRobin c8Registry 0).map (fun p => p.2.1) = some 70
    ∧ (routeWithRoundRobin c8Registry 0).map (fun p => p.2.2) = some (0 + 1) :=
  C8_round_robin_cycles c8Registry 0 (by
    simp +decide [c8Registry, AgentRegistry.get_available_agents, sortByName,
      insertByName, String.lt_iff_toList_lt])

/-! ### C9: assignment of a task id unknown to the coordinator -/

/-- C9: when a task id is in neither the queue nor `active_tasks`,
`assign_task` returns `false` and the whole coordinator state — queue, active
tasks, agent assignments and registry — is returned unchanged; and a workflow
step dispatched with a materialized task of such an id (the engine never
enqueues step tasks through `create_task`) fails at the `assign_task` call,
returning `false` with the coordinator untouched (only the step itself was
marked in-progress beforehand). -/
theorem C9_assign_unknown_task_unchanged (c : TaskCoordinator) (tid : Nat)
    (a : String) (now : Nat)
    (hq : ∀ u ∈ c.task_queue, u.task_id ≠ tid)
    (ha : ∀ p ∈ c.active_tasks, p.1 ≠ tid) :
    assign_task c tid a now = (false, c)
    ∧ ∀ (step : WorkflowStep) (ag : String) (td : TaskDefinition)
        (wp : TaskPriority) (fid : Nat),
        step.assigned_agent = some ag → step.task_definition = some td →
        td.task_id = tid →
        executeWorkflowStep c step wp fid now
          = some (false, { step with status := .in_progress, started_at := some now }, c) := by
  have hfind : c.task_queue.find? (fun t => t.task_id == tid) = none := by
    rw [List.find?_eq_none]
    intro x hx
    simpa using hq x hx
  have hlook : lookupActive c.active_tasks tid = none := by
    unfold lookupActive
    rw [List.find?_eq_none.mpr]
    · rfl
    · intro x hx
      simpa using ha x hx
  have hassign : ∀ b, assign_task c tid b now = (false, c) := by
    intro b
    unfold assign_task
    rw [hfind]
    simp [hlook]
  refine ⟨hassign a, ?_⟩
  intro step ag td wp fid hag htd hid
  unfold executeWorkflowStep
  rw [hag, htd]
  simp only [hag, htd]
  rw [hid, hassign ag]
  simp

/-- One-agent coordinator with empty queues for the C9 witness. -/
def c9Coordinator : TaskCoordinator :=
  { registry := { agents := [("@a", { name := "@a" })] } }

/-- A materialized step task with id 42, never enqueued. -/
def c9TaskDef : TaskDefinition := { task_id := 42, title := "s", description := "d" }

/-- A workflow step already holding an agent and the unenqueued task. -/
def c9Step : WorkflowStep :=
  { step_id := 1, name := "s", assigned_agent := some "@a",
    task_definition := some c9TaskDef }

/-- Concrete instantiation of `C9_assign_unknown_task_unchanged` at task id
42, which is in neither the queue nor the active map. -/
theorem C9_assign_unknown_task_unchanged_witness :
    assign_task c9Coordinator 42 "@a" 0 = (false, c9Coordinator)
    ∧ executeWorkflowStep c9Coordinator c9Step TaskPriority.medium 7 0
        = some (false, { c9Step with status := .in_progress, started_at := some 0 },
            c9Coordinator) := by
  have h := C9_assign_unknown_task_unchanged c9Coordinator 42 "@a" 0
    (by intro u hu; simp [c9Coordinator] at hu)
    (by intro p hp; simp [c9Coordinator] at hp)
  exact ⟨h.1, h.2 c9Step "@a" c9TaskDef TaskPriority.medium 7 rfl rfl rfl⟩

/-! ### C2: transition guards of assign / start / complete -/

/-- C2 (amended): `start_task` and `complete_task` return `false` with the
state unchanged when the task is not active or the caller is not among its
assigned agents; `assign_task` returns `false` only for an unknown task id or
unknown agent — it performs no status check, so assigning a task that is
already assigned or in progress succeeds. -/
theorem C2_transition_guards (c : TaskCoordinator) (tid : Nat) (a : String)
    (rd : Option (List (String × String))) (fb : Option Rat) (now : Nat) :
    (lookupActive c.active_tasks tid = none →
        start_task c tid a now = (false, c)
        ∧ complete_task c tid a rd fb now = some (false, c))
    ∧ (∀ task, lookupActive c.active_tasks tid = some task →
        task.assigned_agents.contains a = false →
        start_task c tid a now = (false, c)
        ∧ complete_task c tid a rd fb now = some (false, c))
    ∧ (∀ task ap, lookupActive c.active_tasks tid = some task →
        c.registry.get_agent a = some ap →
        (assign_task c tid a now).1 = true) := by
  refine ⟨?_, ?_, ?_⟩
  · intro h
    exact ⟨by simp [start_task, h], by simp [complete_task, h]⟩
  · intro task h hc
    have hc' : a ∉ task.assigned_agents := by simpa using hc
    exact ⟨by simp [start_task, h, hc, hc'], by simp [complete_task, h, hc, hc']⟩
  · intro task ap h hga
    unfold assign_task
    cases hfq : c.task_queue.find? (fun t => t.task_id == tid) with
    | some t => simp [hfq, hga]
    | none => simp [hfq, h, hga]

/-- Coordinator for the C2 witness: task 9 active and assigned to `@b`. -/
def c2WitTask : TaskDefinition :=
  { task_id := 9, title := "w", description := "w",
    status := .assigned, assigned_agents := ["@b"] }

/-- Coordinator state for the C2 witness. -/
def c2WitState : TaskCoordinator :=
  { registry := { agents := [("@b", { name := "@b" })] },
    active_tasks := [(9, c2WitTask)] }

/-- Concrete instantiation of `C2_transition_guards`: starting the
never-assigned task 3 is refused without state change, completing task 9 as
the unassigned agent `@x` is refused, and re-assigning the already-assigned
task 9 succeeds. -/
theorem C2_transition_guards_witness :
    start_task c2WitState 3 "@b" 1 = (false, c2WitState)
    ∧ complete_task c2WitState 9 "@x" none none 1 = some (false, c2WitState)
    ∧ (assign_task c2WitState 9 "@b" 1).1 = true := by
  refine ⟨((C2_transition_guards c2WitState 3 "@b" none none 1).1 (by decide)).1,
    (((C2_transition_guards c2WitState 9 "@x" none none 1).2.1) c2WitTask
      (by decide) (by decide)).2,
    ((C2_transition_guards c2WitState 9 "@b" none none 1).2.2) c2WitTask
      { name := "@b" } (by decide) (by decide)⟩

/-! ### C5: sequential retry bound -/

/-- The one-step workflow used to state the retry bound (defaults:
`auto_retry_failed_steps = true`). -/
def singleStepWorkflow (step : WorkflowStep) : WorkflowDefinition :=
  { steps := [step] }

/-- C5 (amended): a fresh step with `max_retries = N` in a sequential
workflow with auto-retry undergoes at most `min (N+1) 2` execution attempts —
the loop retries at most once in place — and exactly `min (N+1) 2` attempts
when every attempt fails, after which the workflow is escalated to failed.
In particular at most N+1 attempts are made, but for N ≥ 2 the claimed exact
count of N+1 attempts is not reached. -/
theorem C5_sequential_retry_bound (step : WorkflowStep) (exec : Nat → Bool)
    (h0 : step.retry_count = 0) (hdeps : step.depends_on = []) :
    (executeSequentialWorkflow (singleStepWorkflow step) exec).2.2.2
        ≤ min (step.max_retries + 1) 2
    ∧ ((∀ n, exec n = false) →
        (executeSequentialWorkflow (singleStepWorkflow step) exec).2.2.2
            = min (step.max_retries + 1) 2
        ∧ (runSequentialWorkflow (singleStepWorkflow step) exec).1.status
            = WorkflowStatus.failed) := by
  have hchk : checkStepDependencies step [] = true := by
    simp [checkStepDependencies, hdeps]
  have hgo : ∀ b : Bool, executeSequentialWorkflow (singleStepWorkflow step) exec
      = executeSequentialWorkflow.go true exec [step] [] [] 0 := by
    intro b
    simp [executeSequentialWorkflow, singleStepWorkflow]
  rw [runSequentialWorkflow, hgo true]
  unfold executeSequentialWorkflow.go
  simp only [hchk, h0, Bool.not_true, Bool.false_or]
  cases hE0 : exec 0 with
  | true =>
    simp only [if_true]
    unfold executeSequentialWorkflow.go
    constructor
    · simp
      try omega
    · intro hall
      exact absurd hE0 (by simp [hall 0])
  | false =>
    simp only [Bool.false_eq_true, if_false]
    by_cases hN : step.max_retries = 0
    · simp only [hN, Nat.le_refl, if_true]
      constructor
      · simp
      · intro hall
        simp [hN, failWorkflow]
    · have hNle : ¬ step.max_retries ≤ 0 := by omega
      simp only [hNle, if_false]
      cases hE1 : exec 1 with
      | true =>
        simp only [if_true]
        unfold executeSequentialWorkflow.go
        constructor
        · simp
          try omega
        · intro hall
          exact absurd hE1 (by simp [hall 1])
      | false =>
        simp only [Bool.false_eq_true, if_false]
        constructor
        · simp
          try omega
        · intro hall
          constructor
          · simp
            try omega
          · simp [failWorkflow]

/-- A step allowing five retries, used for the C5 witness. -/
def c5WitStep : WorkflowStep := { step_id := 1, name := "w", max_retries := 5 }

/-- Concrete instantiation of `C5_sequential_retry_bound`: the
never-succeeding step with `max_retries = 5` is attempted exactly
`min 6 2 = 2` times and the workflow ends failed. -/
theorem C5_sequential_retry_bound_witness :
    (executeSequentialWorkflow (singleStepWorkflow c5WitStep) c5NeverSucceeds).2.2.2
        = min (c5WitStep.max_retries + 1) 2
    ∧ (runSequentialWorkflow (singleStepWorkflow c5WitStep) c5NeverSucceeds).1.status
        = WorkflowStatus.failed :=
  (C5_sequential_retry_bound c5WitStep c5NeverSucceeds rfl rfl).2 (fun _ => rfl)

/-! ### C4: dependency gating of queue processing -/

/-- Removing the first entry of a different id keeps a queued task. -/
theorem mem_removeFirstTask {t : TaskDefinition} {q : List TaskDefinition}
    {tid : Nat} (ht : t ∈ q) (hne : t.task_id ≠ tid) :
    t ∈ removeFirstTask q tid := by
  induction q with
  | nil => cases ht
  | cons u us ih =>
    rcases List.mem_cons.mp ht with rfl | hmem
    · have hb : (t.task_id == tid) = false := by simp [hne]
      unfold removeFirstTask
      simp [hb]
    · unfold removeFirstTask
      by_cases hu : u.task_id == tid
      · simpa [hu] using hmem
      · simp only [hu, Bool.false_eq_true, if_false, List.mem_cons]
        exact Or.inr (ih hmem)

/-- Every entry of `putActive l k v` is an old entry or carries key `k`. -/
theorem putActive_mem {l : List (Nat × TaskDefinition)} {k : Nat}
    {v : TaskDefinition} {x : Nat × TaskDefinition}
    (hx : x ∈ putActive l k v) : x ∈ l ∨ x.1 = k := by
  unfold putActive at hx
  by_cases hany : l.any (fun p => p.1 == k)
  · simp only [hany, if_true, List.mem_map] at hx
    obtain ⟨p, hp, hfp⟩ := hx
    by_cases hpk : p.1 == k
    · right
      rw [← hfp]
      simp only [hpk, if_true]
      simpa using hpk
    · left
      rw [← hfp]
      simp only [hpk, Bool.false_eq_true, if_false]
      exact hp
  · simp only [hany, Bool.false_eq_true, if_false, List.mem_append,
      List.mem_singleton] at hx
    rcases hx with hx | rfl
    · exact Or.inl hx
    · exact Or.inr rfl

/-- `assign_task` never removes a task with a different id from the queue. -/
theorem assign_task_queue_mem (st : TaskCoordinator) (tid' : Nat) (b : String)
    (now : Nat) (t : TaskDefinition) (ht : t ∈ st.task_queue)
    (hne : t.task_id ≠ tid') :
    t ∈ (assign_task st tid' b now).2.task_queue := by
  unfold assign_task
  cases hfq : st.task_queue.find? (fun u => u.task_id == tid') with
  | none =>
    simp only [hfq]
    cases hlk : lookupActive st.active_tasks tid' with
    | none => simpa using ht
    | some task =>
      simp only
      cases hga : st.registry.get_agent b with
      | none => simpa using ht
      | some ap => simpa using ht
  | some t0 =>
    simp only [hfq]
    cases hga : st.registry.get_agent b with
    | none => simpa using mem_removeFirstTask ht hne
    | some ap => simpa using mem_removeFirstTask ht hne

/-- Any active entry after `assign_task` is an old entry or keyed by the
assigned task id. -/
theorem assign_task_active_keys (st : TaskCoordinator) (tid' : Nat) (b : String)
    (now : Nat) (x : Nat × TaskDefinition)
    (hx : x ∈ (assign_task st tid' b now).2.active_tasks) :
    x ∈ st.active_tasks ∨ x.1 = tid' := by
  unfold assign_task at hx
  cases hfq : st.task_queue.find? (fun u => u.task_id == tid') with
  | none =>
    simp only [hfq] at hx
    cases hlk : lookupActive st.active_tasks tid' with
    | none =>
      simp only [hlk] at hx
      exact Or.inl hx
    | some task =>
      simp only [hlk] at hx
      cases hga : st.registry.get_agent b with
      | none =>
        simp only [hga] at hx
        exact Or.inl hx
      | some ap =>
        simp only [hga] at hx
        exact putActive_mem hx
  | some t0 =>
    simp only [hfq] at hx
    cases hga : st.registry.get_agent b with
    | none =>
      simp only [hga] at hx
      exact Or.inl hx
    | some ap =>
      simp only [hga] at hx
      exact putActive_mem hx

/-- `_attempt_immediate_assignment` never removes a task with a different id
from the queue. -/
theorem attempt_queue_mem (st : TaskCoordinator) (u : TaskDefinition) (now : Nat)
    (t : TaskDefinition) (ht : t ∈ st.task_queue) (hne : t.task_id ≠ u.task_id) :
    t ∈ (attemptImmediateAssignment st u now).task_queue := by
  unfold attemptImmediateAssignment
  cases hfs : find_suitable_agents st u 5 with
  | nil => simpa using ht
  | cons best rest =>
    simp only
    cases hga : st.registry.get_agent best.agent_name with
    | none => simpa using ht
    | some ap =>
      by_cases hav : ap.status.status == "available"
      · simp only [hav, if_true]
        exact assign_task_queue_mem st u.task_id best.agent_name now t ht hne
      · simpa [hav] using ht

/-- Any active entry after `_attempt_immediate_assignment` is an old entry or
keyed by the attempted task's id. -/
theorem attempt_active_keys (st : TaskCoordinator) (u : TaskDefinition)
    (now : Nat) (x : Nat × TaskDefinition)
    (hx : x ∈ (attemptImmediateAssignment st u now).active_tasks) :
    x ∈ st.active_tasks ∨ x.1 = u.task_id := by
  unfold attemptImmediateAssignment at hx
  cases hfs : find_suitable_agents st u 5 with
  | nil =>
    simp only [hfs] at hx
    exact Or.inl hx
  | cons best rest =>
    simp only [hfs] at hx
    cases hga : st.registry.get_agent best.agent_name with
    | none =>
      simp only [hga] at hx
      exact Or.inl hx
    | some ap =>
      simp only [hga] at hx
      by_cases hav : ap.status.status == "available"
      · rw [if_pos hav] at hx
        exact assign_task_active_keys st u.task_id best.agent_name now x hx
      · rw [if_neg (by simp [hav])] at hx
        exact Or.inl hx

/-- Queue-membership invariant of the `process_task_queue` fold: a task with
unmet prerequisites and an id distinct from every other snapshot task stays in
the queue. -/
theorem processQueue_fold_queue_mem (now : Nat) (t : TaskDefinition)
    (hun : taskDepsMet t = false) :
    ∀ (l : List TaskDefinition) (st : TaskCoordinator),
      (∀ u ∈ l, u = t ∨ u.task_id ≠ t.task_id) →
      t ∈ st.task_queue →
      t ∈ (l.foldl (processQueueStep now) st).task_queue := by
  intro l
  induction l with
  | nil =>
    intro st _ ht
    exact ht
  | cons u us ih =>
    intro st hl ht
    simp only [List.foldl_cons]
    apply ih _ (fun v hv => hl v (List.mem_cons_of_mem _ hv))
    rcases hl u (List.mem_cons_self _ _) with rfl | hne
    · unfold processQueueStep
      simp only [hun, Bool.false_eq_true, if_false]
      exact ht
    · unfold processQueueStep
      by_cases hdm : taskDepsMet u
      · rw [if_pos hdm]
        exact attempt_queue_mem st u now t ht (fun he => hne he.symm)
      · rw [if_neg hdm]
        exact ht

/-- Active-map invariant of the `process_task_queue` fold: no entry keyed by
the skipped task's id is ever added. -/
theorem processQueue_fold_active_keys (now : Nat) (t : TaskDefinition)
    (hun : taskDepsMet t = false) (base : List (Nat × TaskDefinition)) :
    ∀ (l : List TaskDefinition) (st : TaskCoordinator),
      (∀ u ∈ l, u = t ∨ u.task_id ≠ t.task_id) →
      (∀ p ∈ st.active_tasks, p.1 = t.task_id → p ∈ base) →
      ∀ p ∈ (l.foldl (processQueueStep now) st).active_tasks,
        p.1 = t.task_id → p ∈ base := by
  intro l
  induction l with
  | nil =>
    intro st _ hinv
    exact hinv
  | cons u us ih =>
    intro st hl hinv
    simp only [List.foldl_cons]
    apply ih _ (fun v hv => hl v (List.mem_cons_of_mem _ hv))
    intro p hp hpk
    rcases hl u (List.mem_cons_self _ _) with rfl | hne
    · unfold processQueueStep at hp
      simp only [hun, Bool.false_eq_true, if_false] at hp
      exact hinv p hp hpk
    · unfold processQueueStep at hp
      by_cases hdm : taskDepsMet u
      · rw [if_pos hdm] at hp
        rcases attempt_active_keys st u now p hp with hold | hku
        · exact hinv p hold hpk
        · exact absurd (hpk ▸ hku.symm) hne
      · rw [if_neg hdm] at hp
        exact hinv p hp hpk

/-- C4 (amended): during a `process_task_queue` pass, a queued task with an
unmet prerequisite dependency is never assigned — it stays in the queue with
its value (hence its `pending` status) unchanged, and no active-task entry
with its id is created. The hypothesis `hid` states that its id identifies it
uniquely in the queue, as UUID keys do. (The immediate-assignment attempt at
task creation, by contrast, does not consult dependencies; see the
counterexample.) -/
theorem C4_process_queue_never_assigns_unmet_prerequisite
    (c : TaskCoordinator) (now : Nat) (t : TaskDefinition)
    (ht : t ∈ c.task_queue) (hun : taskDepsMet t = false)
    (hid : ∀ u ∈ c.task_queue, u.task_id = t.task_id → u = t) :
    t ∈ (process_task_queue c now).task_queue
    ∧ ∀ p ∈ (process_task_queue c now).active_tasks,
        p.1 = t.task_id → p ∈ c.active_tasks := by
  have hl : ∀ u ∈ c.task_queue, u = t ∨ u.task_id ≠ t.task_id := by
    intro u hu
    by_cases he : u.task_id = t.task_id
    · exact Or.inl (hid u hu he)
    · exact Or.inr he
  unfold process_task_queue
  exact ⟨processQueue_fold_queue_mem now t hun c.task_queue c hl ht,
    processQueue_fold_active_keys now t hun c.active_tasks c.task_queue c hl
      (fun p hp _ => hp) ⟩

/-- Coordinator for the C4 witness: one available agent, and task 1 with an
unmet prerequisite waiting in the queue. -/
def c4WitState : TaskCoordinator :=
  { registry := { agents := [("@a", { name := "@a" })] },
    task_queue := [c4Task] }

/-- Concrete instantiation of
`C4_process_queue_never_assigns_unmet_prerequisite`: despite a suitable
available agent, the queue-processing pass leaves the blocked task queued and
creates no active entry for it. -/
theorem C4_process_queue_never_assigns_witness :
    c4Task ∈ (process_task_queue c4WitState 0).task_queue
    ∧ ∀ p ∈ (process_task_queue c4WitState 0).active_tasks,
        p.1 = c4Task.task_id → p ∈ c4WitState.active_tasks :=
  C4_process_queue_never_assigns_unmet_prerequisite c4WitState 0 c4Task
    (by decide) (by decide)
    (by intro u hu he; simp [c4WitState] at hu; simp [hu])

/-! ### C7: completing an already-completed task -/

/-- `eraseActive` removes every entry keyed by the erased id. -/
theorem eraseActive_keys (l : List (Nat × TaskDefinition)) (tid : Nat) :
    ∀ p ∈ eraseActive l tid, p.1 ≠ tid := by
  intro p hp
  unfold eraseActive at hp
  have := List.of_mem_filter hp
  simpa using this

/-- Active-map invariant of the `_check_dependent_tasks` fold: when no
snapshot task carries the completed id and the active map has no entry with
that key, the rescan never creates one. -/
theorem dependentScan_fold_active_not (cid now tid : Nat) :
    ∀ (l : List TaskDefinition) (st : TaskCoordinator),
      (∀ u ∈ l, u.task_id ≠ tid) →
      (∀ p ∈ st.active_tasks, p.1 ≠ tid) →
      ∀ p ∈ (l.foldl (dependentScanStep cid now) st).active_tasks, p.1 ≠ tid := by
  intro l
  induction l with
  | nil =>
    intro st _ h
    exact h
  | cons u us ih =>
    intro st hl hinv
    simp only [List.foldl_cons]
    apply ih _ (fun v hv => hl v (List.mem_cons_of_mem _ hv))
    intro p hp
    unfold dependentScanStep at hp
    simp only at hp
    by_cases hr : (checkAndUpdateDeps cid u.dependencies).2 = true
    · rw [if_pos hr] at hp
      rcases attempt_active_keys _ _ now p hp with hold | hk
      · exact hinv p hold
      · rw [hk]
        exact hl u (List.mem_cons_self _ _)
    · rw [if_neg hr] at hp
      exact hinv p hp

/-- Shape of a successful `complete_task`: the returned state is the
dependent-task rescan applied to an intermediate state whose active map is the
original minus the completed id and whose queue is unchanged. -/
theorem complete_task_success_shape (c c' : TaskCoordinator) (tid : Nat)
    (a : String) (rd : Option (List (String × String))) (fb : Option Rat)
    (now : Nat) (h1 : complete_task c tid a rd fb now = some (true, c')) :
    ∃ X : TaskCoordinator, c' = checkDependentTasks X tid now
      ∧ X.active_tasks = eraseActive c.active_tasks tid
      ∧ X.task_queue = c.task_queue := by
  unfold complete_task at h1
  cases hL : lookupActive c.active_tasks tid with
  | none =>
    rw [hL] at h1
    simp at h1
  | some task =>
    rw [hL] at h1
    by_cases hct : task.assigned_agents.contains a
    · simp only [hct, Bool.not_true, Bool.false_eq_true, if_false] at h1
      cases hfa : c.agent_assignments.find? (fun p => p.1 == a) with
      | none =>
        simp only [hfa] at h1
        cases hga : c.registry.get_agent a with
        | none =>
          rw [hga] at h1
          exact absurd h1 (by simp)
        | some ap =>
          rw [hga] at h1
          simp only [Option.some.injEq, Prod.mk.injEq, true_and] at h1
          exact ⟨_, h1.symm, rfl, rfl⟩
      | some p =>
        simp only [hfa] at h1
        by_cases hcont : p.2.contains tid
        · simp only [hcont, Bool.not_true, Bool.false_eq_true, if_false] at h1
          by_cases hemp : (p.2.eraseP (fun x => x == tid)).isEmpty
          · simp only [hemp, if_true] at h1
            cases hga : (c.registry.update_agent_status a "available").get_agent a with
            | none =>
              rw [hga] at h1
              exact absurd h1 (by simp)
            | some ap =>
              rw [hga] at h1
              simp only [Option.some.injEq, Prod.mk.injEq, true_and] at h1
              exact ⟨_, h1.symm, rfl, rfl⟩
          · simp only [hemp, Bool.false_eq_true, if_false] at h1
            cases hga : c.registry.get_agent a with
            | none =>
              rw [hga] at h1
              exact absurd h1 (by simp)
            | some ap =>
              rw [hga] at h1
              simp only [Option.some.injEq, Prod.mk.injEq, true_and] at h1
              exact ⟨_, h1.symm, rfl, rfl⟩
        · simp only [hcont, Bool.not_false, if_true] at h1
          simp at h1
    · simp only [hct, Bool.not_false, if_true] at h1
      simp at h1

/-- C7: once `complete_task` has succeeded for a task id (and no queued task
reuses that id), a second `complete_task` call with the same id returns
`false`, leaves the state untouched, and in particular does not increment the
agent's `total_tasks_completed` again. -/
theorem C7_complete_task_second_call_rejected (c c' : TaskCoordinator)
    (tid : Nat) (a : String) (rd rd' : Option (List (String × String)))
    (fb fb' : Option Rat) (now now' : Nat)
    (h1 : complete_task c tid a rd fb now = some (true, c'))
    (hq : ∀ u ∈ c.task_queue, u.task_id ≠ tid) :
    complete_task c' tid a rd' fb' now' = some (false, c')
    ∧ (complete_task c' tid a rd' fb' now').map
        (fun p => (p.2.registry.get_agent a).map
          (fun q => q.metrics.total_tasks_completed))
      = some ((c'.registry.get_agent a).map
          (fun q => q.metrics.total_tasks_completed)) := by
  obtain ⟨X, hc', hXa, hXq⟩ := complete_task_success_shape c c' tid a rd fb now h1
  have hact : ∀ p ∈ c'.active_tasks, p.1 ≠ tid := by
    rw [hc']
    unfold checkDependentTasks
    apply dependentScan_fold_active_not tid now tid X.task_queue X
    · rw [hXq]
      exact hq
    · rw [hXa]
      exact eraseActive_keys c.active_tasks tid
  have hlk : lookupActive c'.active_tasks tid = none := by
    unfold lookupActive
    rw [List.find?_eq_none.mpr]
    · rfl
    · intro x hx
      simpa using hact x hx
  have hsecond : complete_task c' tid a rd' fb' now' = some (false, c') := by
    simp [complete_task, hlk]
  exact ⟨hsecond, by simp [hsecond]⟩

/-- An in-progress task assigned to `@a`, about to be completed (C7 witness). -/
def c7Task : TaskDefinition :=
  { task_id := 5, title := "x", description := "y",
    status := .in_progress, assigned_agents := ["@a"],
    assigned_at := some 0, started_at := some 1 }

/-- Status of the busy agent `@a` while working on task 5 (C7 witness). -/
def c7AgentStatus : AgentStatus :=
  { status := "busy", current_task := some "x", workload_percentage := 25 }

/-- The busy agent `@a` (C7 witness). -/
def c7Agent : AgentProfile := { name := "@a", status := c7AgentStatus }

/-- Coordinator holding `c7Task` active, assigned to the busy agent `@a`. -/
def c7State : TaskCoordinator :=
  { registry := { agents := [("@a", c7Agent)] },
    active_tasks := [(5, c7Task)],
    agent_assignments := [("@a", [5])] }

/-- The state after the first successful completion of task 5. -/
def c7After : TaskCoordinator :=
  match complete_task c7State 5 "@a" none none 2 with
  | some p => p.2
  | none => c7State

/-- Concrete instantiation of `C7_complete_task_second_call_rejected`: after
task 5 is completed once, completing it again returns `false` and leaves the
state (hence `total_tasks_completed`) unchanged. -/
theorem C7_complete_task_second_call_rejected_witness :
    complete_task c7After 5 "@a" none none 3 = some (false, c7After) :=
  (C7_complete_task_second_call_rejected c7State c7After 5 "@a" none none none none
    2 3 (by decide) (by decide)).1
